import Mathlib

/-!
Verification of the Browser/Context/Page session manager specified for the
keyword-binding layer in src/Browser/keywords/browser_state.py.

The Python file is a thin RPC glue layer: each keyword marshals a request and
sends it to an external automation server.  The server-side session manager
(Registries, Dispatcher, Supervisor) is specified in spec.md but its code is
not part of src/, so it is modelled here from the spec's words; the glue-level
request construction (open_browser, new_page) is embedded directly from the
Python source.
-/

namespace BrowserSpec

/-- Engines, mirroring `SupportedBrowsers` in src/Browser/keywords/browser_state.py. -/
inductive Engine where
  | chromium
  | firefox
  | webkit
deriving DecidableEq, Repr

/-- Name of an engine, as the Python `Enum.name` attribute yields it. -/
def Engine.name : Engine → String
  | .chromium => "chromium"
  | .firefox => "firefox"
  | .webkit => "webkit"

/-- Modelled from the spec: parsing of the case-sensitive engine name
(`engine as one of the three fixed names (case-sensitive)`). -/
def parseEngine (s : String) : Option Engine :=
  if s = "chromium" then some .chromium
  else if s = "firefox" then some .firefox
  else if s = "webkit" then some .webkit
  else none

/-- Modelled from the spec: error kinds of section 7 of spec.md. -/
inductive Err where
  | EngineUnavailable
  | LaunchTimeout
  | NoBrowserOpen
  | IndexOutOfRange
  | UnknownCommand
  | MalformedPayload
  | ProcessCrashed
deriving DecidableEq, Repr

/-- Modelled from the spec: a Page — a navigable unit with owning-context
scoped index and current URL.  `id` is a session-unique handle, `idx` the
position in the owning Context's page sequence at creation time. -/
structure Page where
  id : Nat
  url : Option String
  idx : Nat
deriving DecidableEq, Repr

/-- Modelled from the spec: a Context — an isolated profile holding an ordered
sequence of Pages; `id` is its handle, `opts` its configuration options. -/
structure Context where
  id : Nat
  opts : List (String × String)
  pages : List Page
deriving DecidableEq, Repr

/-- Modelled from the spec: a Browser — a running engine process instance. -/
structure Browser where
  engine : Engine
  headless : Bool
  opts : List (String × String)
deriving DecidableEq, Repr

/-- Modelled from the spec: the per-session state of the session manager —
at most one current Browser, its Contexts, the target-context pointer, the
Active Page Pointer and the Auto-Activate Flag. -/
structure Session where
  browser : Option Browser
  contexts : List Context
  currentCtx : Option Nat
  activePage : Option Nat
  autoActivate : Bool
  nextCtxId : Nat
  nextPageId : Nat
deriving DecidableEq, Repr

/-- The `NoBrowser` starting state of the session state machine. -/
def initialSession : Session :=
  { browser := none
    contexts := []
    currentCtx := none
    activePage := none
    autoActivate := false
    nextCtxId := 0
    nextPageId := 0 }

/-- The default Browser auto-launched on demand: chromium, headless, no
options — the defaults of the binding's `open_browser`. -/
def defaultBrowser : Browser :=
  { engine := .chromium, headless := true, opts := [] }

/-- Modelled from the spec: Process Supervisor `launch`.  Replacing the single
current Browser cascades closing the previous Browser's Contexts and Pages. -/
def launch (e : Engine) (headless : Bool) (opts : List (String × String)) (s : Session) : Session :=
  { s with
      browser := some { engine := e, headless := headless, opts := opts }
      contexts := []
      currentCtx := none
      activePage := none }

/-- Modelled from the spec: `CloseBrowser` returns to `NoBrowser` and cascades
closing all Contexts and Pages; idempotent. -/
def closeBrowser (s : Session) : Session :=
  { s with
      browser := none
      contexts := []
      currentCtx := none
      activePage := none }

/-- Modelled from the spec: Context Registry `createContext`.  If no Browser
exists a default one is auto-launched (the `NoBrowserOpen` condition is
recovered, not surfaced).  Creates no Pages; the new Context becomes the
target context.  Returns the new Context's handle. -/
def createContext (opts : List (String × String)) (s : Session) : Session × Nat :=
  let s₁ := if s.browser.isSome then s else { s with browser := some defaultBrowser }
  let cid := s₁.nextCtxId
  ({ s₁ with
       contexts := s₁.contexts ++ [{ id := cid, opts := opts, pages := [] }]
       currentCtx := some cid
       nextCtxId := cid + 1 }, cid)

/-- Modelled from the spec: Page Registry `openPage` — appends a fresh Page at
the end of the target Context's page sequence and, when Auto-Activate is on,
moves the Active Page Pointer to it.  Returns the new Page's handle, or
`none` when no Context carries the given handle. -/
def openPage (c : Nat) (u : Option String) (s : Session) : Session × Option Nat :=
  if s.contexts.any (fun ctx => ctx.id == c) then
    ({ s with
         contexts := s.contexts.map (fun ctx =>
           if ctx.id == c then
             { ctx with pages :=
                 ctx.pages ++ [{ id := s.nextPageId, url := u, idx := ctx.pages.length }] }
           else ctx)
         activePage := if s.autoActivate then some s.nextPageId else s.activePage
         nextPageId := s.nextPageId + 1 }, some s.nextPageId)
  else (s, none)

/-- Modelled from the spec: `switchActivePage(index)` — sets the Active Page
Pointer to the Page at that ordinal position of the target Context; fails
with `IndexOutOfRange` when no Page occupies that index. -/
def switchActivePage (i : Int) (s : Session) : Except Err Session :=
  match s.currentCtx with
  | none => .error .IndexOutOfRange
  | some c =>
    match s.contexts.find? (fun ctx => ctx.id == c) with
    | none => .error .IndexOutOfRange
    | some ctx =>
      if i < 0 then .error .IndexOutOfRange
      else
        match ctx.pages[i.toNat]? with
        | some pg => .ok { s with activePage := some pg.id }
        | none => .error .IndexOutOfRange

/-- Modelled from the spec: `toggleAutoActivate()` flips the Auto-Activate
Flag and returns its new value. -/
def toggleAutoActivate (s : Session) : Session × Bool :=
  ({ s with autoActivate := !s.autoActivate }, !s.autoActivate)

/-- Modelled from the spec: `closePage(handle)` removes the Page; if it was
the active page the Active Page Pointer becomes undefined.  Idempotent. -/
def closePage (p : Nat) (s : Session) : Session :=
  { s with
      contexts := s.contexts.map (fun ctx =>
        { ctx with pages := ctx.pages.filter (fun pg => !(pg.id == p)) })
      activePage := if s.activePage = some p then none else s.activePage }

/-- Modelled from the spec: `closeContext(handle)` removes the Context and
cascades removal of all its Pages, re-indexing nothing in other Contexts;
the Active Page Pointer is cleared when its Page was removed, keeping the
pointer referencing an existing Page or undefined. -/
def closeContext (c : Nat) (s : Session) : Session :=
  let remaining := s.contexts.filter (fun ctx => !(ctx.id == c))
  { s with
      contexts := remaining
      currentCtx := if s.currentCtx = some c then none else s.currentCtx
      activePage :=
        match s.activePage with
        | none => none
        | some p =>
          if remaining.any (fun ctx => ctx.pages.any (fun pg => pg.id == p)) then some p
          else none }

/-- Modelled from the spec: the auto-provisioning rule — resolve the target
Context, creating a default Context (and, transitively, a default Browser)
when none exists. -/
def ensureContext (s : Session) : Session × Nat :=
  match s.currentCtx with
  | some c => if s.contexts.any (fun ctx => ctx.id == c) then (s, c) else createContext [] s
  | none => createContext [] s

/-- Modelled from the spec: decoding of a serialized key/value option blob.
The blob is a `;`-separated list of `k=v` pairs; anything else cannot be
decoded (`MalformedPayload`). -/
def decodePair (s : String) : Option (String × String) :=
  match s.splitOn "=" with
  | [k, v] => some (k, v)
  | _ => none

/-- Modelled from the spec: decode a whole option blob; the empty blob is the
empty map. -/
def decodeOptions (blob : String) : Option (List (String × String)) :=
  if blob = "" then some []
  else (blob.splitOn ";").mapM decodePair

/-- Modelled from the spec: the structured parameter payload of an inbound
command (engine name, raw option blob, URL, integer index, or empty). -/
inductive Payload where
  | empty
  | url (u : Option String)
  | index (i : Int)
  | options (blob : String)
  | browserSpec (u : Option String) (engine : String) (headless : Bool)
  | browserNew (engine : String) (blob : String)
deriving DecidableEq, Repr

/-- Modelled from the spec: a named command plus payload as received by the
Request Dispatcher. -/
structure RawCommand where
  name : String
  payload : Payload
deriving DecidableEq, Repr

/-- Modelled from the spec: the Request Dispatcher — validates the command
name against the fixed set of supported operations, decodes payloads, routes
to the Registry/Supervisor operations and returns a log line or an error.
Validation errors leave the session untouched. -/
def dispatch (cmd : RawCommand) (s : Session) : Session × Except Err String :=
  match cmd.name, cmd.payload with
  | "OpenBrowser", .browserSpec _u eng hl =>
    match parseEngine eng with
    | some e => (launch e hl [] s, .ok "Browser opened")
    | none => (s, .error .MalformedPayload)
  | "OpenBrowser", _ => (s, .error .MalformedPayload)
  | "CloseBrowser", .empty => (closeBrowser s, .ok "Browser closed")
  | "CloseBrowser", _ => (s, .error .MalformedPayload)
  | "NewBrowser", .browserNew eng blob =>
    match parseEngine eng, decodeOptions blob with
    | some e, some o => (launch e true o s, .ok "Browser created")
    | _, _ => (s, .error .MalformedPayload)
  | "NewBrowser", _ => (s, .error .MalformedPayload)
  | "NewContext", .options blob =>
    match decodeOptions blob with
    | some o => ((createContext o s).1, .ok "Context created")
    | none => (s, .error .MalformedPayload)
  | "NewContext", _ => (s, .error .MalformedPayload)
  | "NewPage", .url u =>
    ((openPage (ensureContext s).2 u (ensureContext s).1).1, .ok "Page opened")
  | "NewPage", _ => (s, .error .MalformedPayload)
  | "SwitchActivePage", .index i =>
    match switchActivePage i s with
    | .ok s' => (s', .ok "Active page switched")
    | .error e => (s, .error e)
  | "SwitchActivePage", _ => (s, .error .MalformedPayload)
  | "AutoActivatePages", .empty =>
    ((toggleAutoActivate s).1, .ok "Auto activate toggled")
  | "AutoActivatePages", _ => (s, .error .MalformedPayload)
  | _, _ => (s, .error .UnknownCommand)

/-! Glue layer embedded from src/Browser/keywords/browser_state.py: the
request objects the keywords construct and send over the channel. -/

/-- The `NewBrowser` request message, as `open_browser` fills it:
`Request().NewBrowser(url=url or "", browser=browser.name, headless=headless)`. -/
structure NewBrowserRequest where
  url : String
  browser : String
  headless : Bool
deriving DecidableEq, Repr

/-- The `Url` request message, as `new_page` fills it: `Request().Url(url=url)`. -/
structure UrlRequest where
  url : Option String
deriving DecidableEq, Repr

/-- Python truthiness of `url or ""` for an optional string: `None` and `""`
both yield `""`. -/
def orEmpty : Option String → String
  | none => ""
  | some u => u

/-- Embedded from `open_browser` (browser_state.py lines 28-51): the request
it sends, with `url=url or ""`, `browser=browser.name`, `headless=headless`. -/
def open_browser (url : Option String) (browser : Engine) (headless : Bool) : NewBrowserRequest :=
  { url := orEmpty url, browser := browser.name, headless := headless }

/-- Default of `open_browser`'s `url` parameter in the Python signature. -/
def openBrowserDefaultUrl : Option String := none

/-- Default of `open_browser`'s `browser` parameter in the Python signature. -/
def openBrowserDefaultBrowser : Engine := .chromium

/-- Default of `open_browser`'s `headless` parameter in the Python signature. -/
def openBrowserDefaultHeadless : Bool := true

/-- Embedded from `new_page` (browser_state.py lines 94-103): the request it
sends, forwarding `url` unchanged into `Request().Url(url=url)`. -/
def new_page (url : Option String) : UrlRequest :=
  { url := url }

/-- Default of `new_page`'s `url` parameter in the Python signature. -/
def newPageDefaultUrl : Option String := none

/-! Sample sessions used by the witness theorems. -/

/-- A sample session: one chromium Browser, one Context (handle 0, the target
context) holding two Pages, no active page, Auto-Activate off. -/
def sampleCtx : Context :=
  { id := 0
    opts := []
    pages := [{ id := 0, url := none, idx := 0 }, { id := 1, url := some "x", idx := 1 }] }

/-- A sample session wrapping `sampleCtx`. -/
def sampleSession : Session :=
  { browser := some defaultBrowser
    contexts := [sampleCtx]
    currentCtx := some 0
    activePage := none
    autoActivate := false
    nextCtxId := 1
    nextPageId := 2 }

/-- The sample session with Page 1 active. -/
def sampleSessionActive : Session :=
  { sampleSession with activePage := some 1 }

/-! Derived notions used to state the sequence and invariant claims. -/

/-- Page sequence of the Context with handle `c` (empty when absent). -/
def ctxPages (c : Nat) (s : Session) : List Page :=
  match s.contexts.find? (fun ctx => ctx.id == c) with
  | some ctx => ctx.pages
  | none => []

/-- Index sequence of the Pages of the Context with handle `c`. -/
def idxList (c : Nat) (s : Session) : List Nat :=
  (ctxPages c s).map Page.idx

/-- Whether a Context with handle `c` exists in the session. -/
def hasCtx (c : Nat) (s : Session) : Bool :=
  s.contexts.any (fun ctx => ctx.id == c)

/-- One step of an `openPage`/`closePage` interleaving aimed at a
distinguished Context. -/
inductive COp where
  | openP (u : Option String)
  | closeP (p : Nat)
deriving DecidableEq, Repr

/-- Apply one interleaving step: `openP` opens a page in Context `c`,
`closeP` closes the page with the given handle (wherever it lives). -/
def applyCOp (c : Nat) (s : Session) : COp → Session
  | .openP u => (openPage c u s).1
  | .closeP p => closePage p s

/-- Apply a whole interleaving, left to right. -/
def applyCOps (c : Nat) : List COp → Session → Session
  | [], s => s
  | op :: rest, s => applyCOps c rest (applyCOp c s op)

/-- Number of `openP` steps in an interleaving. -/
def countOpens : List COp → Nat
  | [] => 0
  | .openP _ :: rest => countOpens rest + 1
  | .closeP _ :: rest => countOpens rest

/-- An interleaving whose `closeP` steps never target a Page of Context `c`
at the moment they are applied — the `closePage` calls happen on other
Contexts. -/
inductive ClosesElsewhere (c : Nat) : Session → List COp → Prop
  | nil (s : Session) : ClosesElsewhere c s []
  | openStep (s : Session) (u : Option String) (ops : List COp) :
      ClosesElsewhere c (applyCOp c s (.openP u)) ops →
      ClosesElsewhere c s (.openP u :: ops)
  | closeStep (s : Session) (p : Nat) (ops : List COp) :
      (∀ pg ∈ ctxPages c s, pg.id ≠ p) →
      ClosesElsewhere c (applyCOp c s (.closeP p)) ops →
      ClosesElsewhere c s (.closeP p :: ops)

/-- A session-unique handle `p` references an existing Page of the session. -/
def pageInSession (s : Session) (p : Nat) : Prop :=
  ∃ ctx ∈ s.contexts, ∃ pg ∈ ctx.pages, pg.id = p

/-- The Active Page Pointer references an existing Page or is undefined. -/
def ActiveOk (s : Session) : Prop :=
  ∀ p, s.activePage = some p → pageInSession s p

/-- Session states reachable from the `NoBrowser` state through dispatched
commands and the Registry close operations. -/
inductive Reachable : Session → Prop
  | init : Reachable initialSession
  | cmdStep (cmd : RawCommand) (s : Session) :
      Reachable s → Reachable (dispatch cmd s).1
  | closeContextStep (c : Nat) (s : Session) :
      Reachable s → Reachable (closeContext c s)
  | closePageStep (p : Nat) (s : Session) :
      Reachable s → Reachable (closePage p s)

/-! Theorems for the claims. -/

/-- C9: `toggleAutoActivate` flips the Auto-Activate Flag and returns the
flag's new value; calling it twice in a row restores the flag to its original
value, and the two calls return opposite boolean values. -/
theorem toggle_auto_activate_involutive (s : Session) :
    (toggleAutoActivate s).2 = !s.autoActivate ∧
    (toggleAutoActivate s).1.autoActivate = !s.autoActivate ∧
    (toggleAutoActivate (toggleAutoActivate s).1).1.autoActivate = s.autoActivate ∧
    (toggleAutoActivate (toggleAutoActivate s).1).2 = !(toggleAutoActivate s).2 := by
  simp [toggleAutoActivate]

/-- C4: `closeBrowser` is idempotent: for every session state, a second
`CloseBrowser` in a row produces no error and leaves the session in the
`NoBrowser` state; the first close already cascades closing all Contexts
and Pages of the Browser. -/
theorem close_browser_idempotent (s : Session) :
    (dispatch { name := "CloseBrowser", payload := .empty } s).1.browser = none ∧
    (dispatch { name := "CloseBrowser", payload := .empty } s).1.contexts = [] ∧
    (dispatch { name := "CloseBrowser", payload := .empty } s).2 = .ok "Browser closed" ∧
    (dispatch { name := "CloseBrowser", payload := .empty }
      (dispatch { name := "CloseBrowser", payload := .empty } s).1).2 = .ok "Browser closed" ∧
    (dispatch { name := "CloseBrowser", payload := .empty }
      (dispatch { name := "CloseBrowser", payload := .empty } s).1).1 =
      (dispatch { name := "CloseBrowser", payload := .empty } s).1 := by
  simp [dispatch, closeBrowser]

/-- C10: `open_browser` normalizes an omitted or `None` url to the empty
string in the outgoing request (with defaults browser = chromium and
headless = True), whereas `new_page` forwards its url argument unchanged, so
`new_page` with no url places `None`, not the empty string, in the request. -/
theorem open_browser_url_normalized_new_page_not (b : Engine) (h : Bool) (u : Option String) :
    open_browser openBrowserDefaultUrl openBrowserDefaultBrowser openBrowserDefaultHeadless =
      { url := "", browser := "chromium", headless := true } ∧
    (open_browser none b h).url = "" ∧
    openBrowserDefaultBrowser = Engine.chromium ∧
    openBrowserDefaultHeadless = true ∧
    new_page u = { url := u } ∧
    (new_page newPageDefaultUrl).url = none ∧
    (new_page newPageDefaultUrl).url ≠ some "" := by
  simp [open_browser, new_page, orEmpty, openBrowserDefaultUrl, openBrowserDefaultBrowser,
    openBrowserDefaultHeadless, newPageDefaultUrl, Engine.name]

/-- C8: for every command whose validation fails — unrecognized command name
(`UnknownCommand`), undecodable option blob (`MalformedPayload`), or bad
index (`IndexOutOfRange`) — the error is reported to the caller and the
session state is left completely unchanged. -/
theorem validation_errors_no_side_effects (cmd : RawCommand) (s : Session) (e : Err)
    (herr : (dispatch cmd s).2 = .error e)
    (hkind : e = .UnknownCommand ∨ e = .MalformedPayload ∨ e = .IndexOutOfRange) :
    (dispatch cmd s).1 = s := by
  clear hkind
  obtain ⟨n, p⟩ := cmd
  simp only [dispatch] at herr ⊢
  split at herr <;> (try split at herr) <;> simp_all

/-- Witness for C8 at a concrete unrecognized command. -/
theorem validation_errors_no_side_effects_witness :
    (dispatch { name := "Bogus", payload := .empty } initialSession).2 =
      .error .UnknownCommand ∧
    (dispatch { name := "Bogus", payload := .empty } initialSession).1 = initialSession :=
  ⟨rfl,
   validation_errors_no_side_effects { name := "Bogus", payload := .empty } initialSession
     .UnknownCommand rfl (Or.inl rfl)⟩

/-- C1: for every session whose target Context exists and every integer `i`,
`switchActivePage i` succeeds and sets the Active Page Pointer to the Page at
ordinal position `i` exactly when `0 <= i < len(pages)` of the target Context
at call time; for every `i` outside that range it fails with
`IndexOutOfRange`. -/
theorem switch_active_page_in_range_iff (s : Session) (c : Nat) (ctx : Context)
    (hcur : s.currentCtx = some c)
    (hfind : s.contexts.find? (fun k => k.id == c) = some ctx) :
    (∀ i : Int, 0 ≤ i → i < (ctx.pages.length : Int) →
      ∃ pg, ctx.pages[i.toNat]? = some pg ∧
        switchActivePage i s = .ok { s with activePage := some pg.id }) ∧
    (∀ i : Int, i < 0 ∨ (ctx.pages.length : Int) ≤ i →
      switchActivePage i s = .error .IndexOutOfRange) := by
  constructor
  · intro i h0 hlt
    have hidx : i.toNat < ctx.pages.length := by omega
    obtain ⟨pg, hget⟩ : ∃ pg, ctx.pages[i.toNat]? = some pg :=
      ⟨ctx.pages.get ⟨i.toNat, hidx⟩, List.getElem?_eq_getElem hidx⟩
    refine ⟨pg, hget, ?_⟩
    simp only [switchActivePage, hcur, hfind, hget]
    rw [if_neg (by omega)]
  · intro i hout
    rcases hout with hneg | hge
    · simp only [switchActivePage, hcur, hfind]
      rw [if_pos hneg]
    · have hnone : ctx.pages[i.toNat]? = none :=
        List.getElem?_eq_none (by omega)
      simp only [switchActivePage, hcur, hfind, hnone]
      rw [if_neg (by omega)]

/-- Witness for C1 at concrete out-of-range indices of the sample session. -/
theorem switch_active_page_in_range_iff_witness :
    switchActivePage 2 sampleSession = .error .IndexOutOfRange ∧
    switchActivePage (-1) sampleSession = .error .IndexOutOfRange :=
  ⟨(switch_active_page_in_range_iff sampleSession 0 sampleCtx rfl rfl).2 2 (Or.inr (by decide)),
   (switch_active_page_in_range_iff sampleSession 0 sampleCtx rfl rfl).2 (-1)
     (Or.inl (by decide))⟩

/-- C3: for every `openPage` call on an existing Context: with the
Auto-Activate Flag on the Active Page Pointer moves to the newly created
Page, with the flag off it is left unchanged, and every other component of
the resulting state (and the returned handle) is identical in both cases. -/
theorem open_page_auto_activate_pointer (s : Session) (c : Nat) (u : Option String)
    (hex : s.contexts.any (fun ctx => ctx.id == c) = true) :
    (openPage c u { s with autoActivate := true }).1.activePage = some s.nextPageId ∧
    (openPage c u { s with autoActivate := false }).1.activePage = s.activePage ∧
    (openPage c u { s with autoActivate := true }).1.contexts =
      (openPage c u { s with autoActivate := false }).1.contexts ∧
    (openPage c u { s with autoActivate := true }).1.browser =
      (openPage c u { s with autoActivate := false }).1.browser ∧
    (openPage c u { s with autoActivate := true }).1.currentCtx =
      (openPage c u { s with autoActivate := false }).1.currentCtx ∧
    (openPage c u { s with autoActivate := true }).1.nextCtxId =
      (openPage c u { s with autoActivate := false }).1.nextCtxId ∧
    (openPage c u { s with autoActivate := true }).1.nextPageId =
      (openPage c u { s with autoActivate := false }).1.nextPageId ∧
    (openPage c u { s with autoActivate := true }).2 =
      (openPage c u { s with autoActivate := false }).2 := by
  simp [openPage, hex]

/-- Witness for C3 at the sample session. -/
theorem open_page_auto_activate_pointer_witness :
    (openPage 0 none { sampleSession with autoActivate := true }).1.activePage = some 2 ∧
    (openPage 0 none { sampleSession with autoActivate := false }).1.activePage = none :=
  ⟨(open_page_auto_activate_pointer sampleSession 0 none (by decide)).1,
   (open_page_auto_activate_pointer sampleSession 0 none (by decide)).2.1⟩

/-- C6: for every `createContext` request issued while no Browser is open, a
default Browser is auto-launched and no `NoBrowserOpen` error is surfaced to
the caller; `createContext` creates no Page: the new Context is appended
empty and all previous Contexts keep their page sequences. -/
theorem new_context_auto_launch (s : Session) (blob : String) (o : List (String × String))
    (hb : s.browser = none) (hdec : decodeOptions blob = some o) :
    (dispatch { name := "NewContext", payload := .options blob } s).2 = .ok "Context created" ∧
    (dispatch { name := "NewContext", payload := .options blob } s).1.browser =
      some defaultBrowser ∧
    (dispatch { name := "NewContext", payload := .options blob } s).1.contexts =
      s.contexts ++ [{ id := s.nextCtxId, opts := o, pages := [] }] := by
  simp [dispatch, hdec, createContext, hb, defaultBrowser]

/-- Witness for C6 at the initial session with the empty option blob. -/
theorem new_context_auto_launch_witness :
    (dispatch { name := "NewContext", payload := .options "" } initialSession).1.browser =
      some defaultBrowser ∧
    (dispatch { name := "NewContext", payload := .options "" } initialSession).2 =
      .ok "Context created" :=
  ⟨(new_context_auto_launch initialSession "" [] rfl (by decide)).2.1,
   (new_context_auto_launch initialSession "" [] rfl (by decide)).1⟩

/-- C5: `closeContext` cascades: after closing the target Context, every
subsequent `switchActivePage` against any of its former indices fails with
`IndexOutOfRange`; no Context with that handle remains, and every other
Context survives untouched — no re-indexing of its Pages. -/
theorem close_context_cascades (s : Session) (c : Nat) (ctx : Context)
    (hcur : s.currentCtx = some c)
    (hfind : s.contexts.find? (fun k => k.id == c) = some ctx) :
    (∀ i : Int, switchActivePage i (closeContext c s) = .error .IndexOutOfRange) ∧
    ((closeContext c s).contexts.find? (fun k => k.id == c) = none) ∧
    (∀ k ∈ s.contexts, k.id ≠ c → k ∈ (closeContext c s).contexts) := by
  refine ⟨?_, ?_, ?_⟩
  · intro i
    simp [switchActivePage, closeContext, hcur]
  · rw [List.find?_eq_none]
    intro x hx
    simp only [closeContext, List.mem_filter] at hx
    simpa using hx.2
  · intro k hk hne
    simp only [closeContext, List.mem_filter]
    exact ⟨hk, by simpa using hne⟩

/-- Witness for C5 at the sample session. -/
theorem close_context_cascades_witness :
    switchActivePage 0 (closeContext 0 sampleSession) = .error .IndexOutOfRange ∧
    switchActivePage 1 (closeContext 0 sampleSession) = .error .IndexOutOfRange :=
  ⟨(close_context_cascades sampleSession 0 sampleCtx rfl rfl).1 0,
   (close_context_cascades sampleSession 0 sampleCtx rfl rfl).1 1⟩

/-- Helper: `find?` by handle commutes with a handle-preserving rewrite of
the context list. -/
theorem find?_map_handle (f : Context → Context) (c : Nat)
    (hf : ∀ ctx, (f ctx).id = ctx.id) (l : List Context) :
    (l.map f).find? (fun ctx => ctx.id == c) =
      (l.find? (fun ctx => ctx.id == c)).map f := by
  induction l with
  | nil => rfl
  | cons hd tl ih =>
    cases hb : (hd.id == c) with
    | false =>
      have hb' : ((f hd).id == c) = false := by rw [hf]; exact hb
      simp only [List.map_cons, List.find?_cons, hb, hb', ih]
    | true =>
      have hb' : ((f hd).id == c) = true := by rw [hf]; exact hb
      simp only [List.map_cons, List.find?_cons, hb, hb', Option.map_some']

/-- Helper: `any` by handle is unchanged by a handle-preserving rewrite. -/
theorem any_handle_map (f : Context → Context) (c : Nat)
    (hf : ∀ ctx, (f ctx).id = ctx.id) (l : List Context) :
    (l.map f).any (fun ctx => ctx.id == c) = l.any (fun ctx => ctx.id == c) := by
  rw [List.any_map]
  simp only [Function.comp_def, hf]

/-- Helper: `openPage` on an existing Context appends a fresh Page, with
index the length of the page sequence, at its end. -/
theorem ctxPages_openPage (c : Nat) (u : Option String) (s : Session)
    (hex : hasCtx c s = true) :
    ctxPages c (openPage c u s).1 =
      ctxPages c s ++
        [{ id := s.nextPageId, url := u, idx := (ctxPages c s).length }] := by
  simp only [hasCtx] at hex
  obtain ⟨ctx0, hfind⟩ : ∃ ctx0, s.contexts.find? (fun ctx => ctx.id == c) = some ctx0 := by
    rw [← Option.isSome_iff_exists, List.find?_isSome]
    simpa [List.any_eq_true] using hex
  have hid : (ctx0.id == c) = true := by
    have hs := List.find?_some hfind
    simpa using hs
  have hf : ∀ ctx : Context,
      ((fun ctx => if ctx.id == c then
        { ctx with pages :=
            ctx.pages ++ [{ id := s.nextPageId, url := u, idx := ctx.pages.length }] }
      else ctx) ctx).id = ctx.id := by
    intro ctx; dsimp only; split <;> rfl
  have hideq : ctx0.id = c := by simpa using hid
  simp only [openPage, hex, if_true, ctxPages]
  rw [find?_map_handle _ c hf, hfind]
  simp [hideq]

/-- Helper: `closePage` of a Page living outside Context `c` leaves the page
sequence of `c` untouched. -/
theorem ctxPages_closePage (c p : Nat) (s : Session)
    (hne : ∀ pg ∈ ctxPages c s, pg.id ≠ p) :
    ctxPages c (closePage p s) = ctxPages c s := by
  have hf : ∀ ctx : Context,
      ((fun ctx : Context =>
        ({ ctx with pages := ctx.pages.filter (fun pg => !(pg.id == p)) } : Context)) ctx).id =
        ctx.id := fun _ => rfl
  simp only [closePage, ctxPages]
  rw [find?_map_handle _ c hf]
  cases hfind : s.contexts.find? (fun ctx => ctx.id == c) with
  | none => rfl
  | some ctx0 =>
    simp only [ctxPages, hfind] at hne
    simp only [Option.map_some']
    apply List.filter_eq_self.mpr
    intro pg hpg
    simpa using hne pg hpg

/-- Helper: existence of Context `c` is preserved by the interleaving steps. -/
theorem hasCtx_applyCOp (c : Nat) (s : Session) (op : COp)
    (h : hasCtx c s = true) : hasCtx c (applyCOp c s op) = true := by
  cases op with
  | openP u =>
    simp only [applyCOp, openPage]
    split
    · simp only [hasCtx] at h ⊢
      rw [any_handle_map]
      · exact h
      · intro ctx; dsimp only; split <;> rfl
    · exact h
  | closeP p =>
    simp only [applyCOp, closePage, hasCtx] at h ⊢
    rw [any_handle_map]
    · exact h
    · intro ctx; rfl

/-- Helper: through an interleaving whose closes target other Contexts, the
index sequence of Context `c` grows from `range n` to `range (n + opens)`. -/
theorem idxList_applyCOps (c : Nat) {s : Session} {ops : List COp}
    (hops : ClosesElsewhere c s ops) :
    ∀ n, hasCtx c s = true → idxList c s = List.range n →
      idxList c (applyCOps c ops s) = List.range (n + countOpens ops) ∧
      hasCtx c (applyCOps c ops s) = true := by
  induction hops with
  | nil s =>
    intro n hc hidx
    simp only [applyCOps, countOpens, Nat.add_zero]
    exact ⟨hidx, hc⟩
  | openStep s u ops _ ih =>
    intro n hc hidx
    have hc' := hasCtx_applyCOp c s (.openP u) hc
    have hlen : (ctxPages c s).length = n := by
      have hl := congrArg List.length hidx
      simpa [idxList] using hl
    have hidx' : idxList c (applyCOp c s (.openP u)) = List.range (n + 1) := by
      simp only [applyCOp, idxList]
      rw [ctxPages_openPage c u s hc, List.map_append]
      simp only [idxList] at hidx
      rw [hidx, List.map_cons, List.map_nil, hlen, List.range_succ]
    have hmain := ih (n + 1) hc' hidx'
    have harith : n + countOpens (COp.openP u :: ops) = n + 1 + countOpens ops := by
      simp only [countOpens]
      omega
    refine ⟨?_, hmain.2⟩
    rw [harith]
    simpa only [applyCOps] using hmain.1
  | closeStep s p ops hne _ ih =>
    intro n hc hidx
    have hc' := hasCtx_applyCOp c s (.closeP p) hc
    have hidx' : idxList c (applyCOp c s (.closeP p)) = List.range n := by
      simp only [applyCOp, idxList]
      rw [ctxPages_closePage c p s hne]
      simpa [idxList] using hidx
    have hmain := ih n hc' hidx'
    have harith : n + countOpens (COp.closeP p :: ops) = n + countOpens ops := by
      simp only [countOpens]
    refine ⟨?_, hmain.2⟩
    rw [harith]
    simpa only [applyCOps] using hmain.1

/-- C2: starting from a freshly created (empty) Context, every `openPage`
appends the new Page at the end of that Context's page sequence, so through
any sequence of `openPage` calls on the Context — interleaved arbitrarily
with `closePage` calls on other Contexts — the index sequence of its Pages
is `0, 1, 2, ...`: strictly increasing starting at 0. -/
theorem open_page_append_monotone_indices (c : Nat) (s : Session) (ops : List COp)
    (ctx : Context)
    (hfind : s.contexts.find? (fun k => k.id == c) = some ctx)
    (hempty : ctx.pages = [])
    (hops : ClosesElsewhere c s ops) :
    (∀ (u : Option String) (t : Session), hasCtx c t = true →
      ctxPages c (openPage c u t).1 =
        ctxPages c t ++ [{ id := t.nextPageId, url := u, idx := (ctxPages c t).length }]) ∧
    idxList c (applyCOps c ops s) = List.range (countOpens ops) ∧
    List.Pairwise (· < ·) (idxList c (applyCOps c ops s)) := by
  have hc : hasCtx c s = true := by
    have hs := List.find?_some hfind
    simp only [hasCtx, List.any_eq_true]
    exact ⟨ctx, List.mem_of_find?_eq_some hfind, by simpa using hs⟩
  have hidx0 : idxList c s = List.range 0 := by
    simp [idxList, ctxPages, hfind, hempty]
  have h := idxList_applyCOps c hops 0 hc hidx0
  have hzero : (0 : Nat) + countOpens ops = countOpens ops := Nat.zero_add _
  refine ⟨fun u t ht => ctxPages_openPage c u t ht, ?_, ?_⟩
  · rw [← hzero]
    exact h.1
  · rw [h.1]
    exact List.pairwise_lt_range _

/-- A second sample Context, empty, with handle 5. -/
def sampleCtxB : Context :=
  { id := 5, opts := [], pages := [] }

/-- A sample session holding both `sampleCtx` (two pages) and the empty
`sampleCtxB`, with the empty one as target. -/
def sampleSessionB : Session :=
  { browser := some defaultBrowser
    contexts := [sampleCtx, sampleCtxB]
    currentCtx := some 5
    activePage := none
    autoActivate := false
    nextCtxId := 6
    nextPageId := 2 }

/-- Witness for C2: two opens on Context 5 interleaved with a close on
Context 0 yield index sequence `[0, 1]`. -/
theorem open_page_append_monotone_indices_witness :
    idxList 5 (applyCOps 5 [COp.openP none, COp.closeP 0, COp.openP (some "y")]
      sampleSessionB) = List.range 2 :=
  (open_page_append_monotone_indices 5 sampleSessionB
    [COp.openP none, COp.closeP 0, COp.openP (some "y")] sampleCtxB rfl rfl
    (ClosesElsewhere.openStep _ _ _
      (ClosesElsewhere.closeStep _ _ _ (by decide)
        (ClosesElsewhere.openStep _ _ _ (ClosesElsewhere.nil _))))).2.1

/-- Helper: a state with undefined Active Page Pointer satisfies `ActiveOk`. -/
theorem activeOk_of_none (s : Session) (h : s.activePage = none) : ActiveOk s := by
  intro p hp
  rw [h] at hp
  cases hp

/-- Helper: `launch` clears the pointer, so `ActiveOk` holds afterwards. -/
theorem activeOk_launch (e : Engine) (hl : Bool) (o : List (String × String)) (s : Session) :
    ActiveOk (launch e hl o s) :=
  activeOk_of_none _ rfl

/-- Helper: `closeBrowser` clears the pointer, so `ActiveOk` holds afterwards. -/
theorem activeOk_closeBrowser (s : Session) : ActiveOk (closeBrowser s) :=
  activeOk_of_none _ rfl

/-- Helper: `createContext` preserves `ActiveOk`. -/
theorem activeOk_createContext (o : List (String × String)) (s : Session)
    (h : ActiveOk s) : ActiveOk (createContext o s).1 := by
  intro p hp
  obtain ⟨ctx, hctx, pg, hpg, hpid⟩ : pageInSession s p := by
    apply h
    simp only [createContext] at hp
    split at hp <;> simpa using hp
  refine ⟨ctx, ?_, pg, hpg, hpid⟩
  simp only [createContext]
  split <;> simp [hctx]

/-- Helper: `openPage` preserves `ActiveOk`. -/
theorem activeOk_openPage (c : Nat) (u : Option String) (s : Session)
    (h : ActiveOk s) : ActiveOk (openPage c u s).1 := by
  intro p hp
  by_cases hex : s.contexts.any (fun ctx => ctx.id == c) = true
  · simp only [openPage, hex, if_true] at hp ⊢
    by_cases hauto : s.autoActivate = true
    · simp only [hauto, if_true] at hp
      obtain ⟨ctx0, hmem, hid⟩ := List.any_eq_true.mp hex
      obtain rfl : s.nextPageId = p := by simpa using hp
      refine ⟨_, List.mem_map_of_mem _ hmem, ?_⟩
      have hideq : (ctx0.id == c) = true := by simpa using hid
      refine ⟨{ id := s.nextPageId, url := u, idx := ctx0.pages.length }, ?_, rfl⟩
      simp [hideq]
    · have hauto' : s.autoActivate = false := by simpa using hauto
      simp only [hauto', Bool.false_eq_true, if_false] at hp
      obtain ⟨ctx, hctx, pg, hpg, hpid⟩ := h p hp
      refine ⟨_, List.mem_map_of_mem _ hctx, pg, ?_, hpid⟩
      dsimp only
      split
      · exact List.mem_append_left _ hpg
      · exact hpg
  · have hex' : s.contexts.any (fun ctx => ctx.id == c) = false := by simpa using hex
    simp only [openPage, hex', Bool.false_eq_true, if_false] at hp ⊢
    exact h p hp

/-- Helper: `toggleAutoActivate` preserves `ActiveOk`. -/
theorem activeOk_toggle (s : Session) (h : ActiveOk s) :
    ActiveOk (toggleAutoActivate s).1 := by
  intro p hp
  exact h p hp

/-- Helper: a successful `switchActivePage` establishes `ActiveOk`. -/
theorem activeOk_switch (i : Int) (s t : Session)
    (heq : switchActivePage i s = .ok t) : ActiveOk t := by
  simp only [switchActivePage] at heq
  split at heq
  · cases heq
  · rename_i c hcur
    split at heq
    · cases heq
    · rename_i ctx hfind
      split at heq
      · cases heq
      · split at heq
        · rename_i pg hget
          cases heq
          intro p hp
          obtain rfl : pg.id = p := by simpa using hp
          exact ⟨ctx, List.mem_of_find?_eq_some hfind, pg, List.getElem?_mem hget, rfl⟩
        · cases heq

/-- Helper: `closePage` preserves `ActiveOk`. -/
theorem activeOk_closePage (p : Nat) (s : Session) (h : ActiveOk s) :
    ActiveOk (closePage p s) := by
  intro q hq
  simp only [closePage] at hq ⊢
  split at hq
  · cases hq
  · rename_i hne
    obtain ⟨ctx, hctx, pg, hpg, hpid⟩ := h q hq
    refine ⟨_, List.mem_map_of_mem _ hctx, pg, ?_, hpid⟩
    dsimp only
    rw [List.mem_filter]
    refine ⟨hpg, ?_⟩
    have hqp : q ≠ p := fun hcontra => hne (by rw [← hcontra]; exact hq)
    simp [hpid, hqp]

/-- Helper: `closeContext` establishes `ActiveOk` outright. -/
theorem activeOk_closeContext (c : Nat) (s : Session) :
    ActiveOk (closeContext c s) := by
  intro q hq
  simp only [closeContext] at hq ⊢
  split at hq
  · cases hq
  · rename_i p' ha
    split at hq
    · rename_i hany
      cases hq
      obtain ⟨ctx, hctx, hpages⟩ := List.any_eq_true.mp hany
      obtain ⟨pg, hpg, hpid⟩ : ∃ pg ∈ ctx.pages, pg.id = q := by simpa using hpages
      exact ⟨ctx, hctx, pg, hpg, hpid⟩
    · cases hq

/-- Helper: the auto-provisioning resolution preserves `ActiveOk`. -/
theorem activeOk_ensureContext (s : Session) (h : ActiveOk s) :
    ActiveOk (ensureContext s).1 := by
  simp only [ensureContext]
  split
  · split
    · exact h
    · exact activeOk_createContext _ _ h
  · exact activeOk_createContext _ _ h

/-- Helper: every dispatched command preserves `ActiveOk`. -/
theorem activeOk_dispatch (cmd : RawCommand) (s : Session) (h : ActiveOk s) :
    ActiveOk (dispatch cmd s).1 := by
  obtain ⟨n, p⟩ := cmd
  simp only [dispatch]
  split <;> (try split) <;> dsimp only <;>
    first
      | exact h
      | exact activeOk_launch _ _ _ _
      | exact activeOk_closeBrowser _
      | exact activeOk_createContext _ _ h
      | exact activeOk_openPage _ _ _ (activeOk_ensureContext _ h)
      | exact activeOk_toggle _ h
      | exact activeOk_switch _ _ _ (by assumption)

/-- Helper: `createContext` never moves the Active Page Pointer. -/
theorem createContext_activePage (o : List (String × String)) (s : Session) :
    (createContext o s).1.activePage = s.activePage := by
  simp only [createContext]
  split <;> rfl

/-- Helper: the auto-provisioning resolution moves neither the Active Page
Pointer nor the Auto-Activate Flag. -/
theorem ensureContext_activePage (s : Session) :
    (ensureContext s).1.activePage = s.activePage ∧
    (ensureContext s).1.autoActivate = s.autoActivate := by
  simp only [ensureContext]
  split
  · split
    · exact ⟨rfl, rfl⟩
    · constructor <;> (simp only [createContext]; split <;> rfl)
  · constructor <;> (simp only [createContext]; split <;> rfl)

/-- Helper: with the Auto-Activate Flag off, `openPage` leaves the Active
Page Pointer unchanged. -/
theorem openPage_activePage_noauto (c : Nat) (u : Option String) (s : Session)
    (hauto : s.autoActivate = false) :
    (openPage c u s).1.activePage = s.activePage := by
  simp only [openPage]
  split
  · simp [hauto]
  · rfl

/-- C7: in every reachable session state the Active Page Pointer references
an existing Page or is undefined; `closePage` of the active Page makes the
pointer undefined, and it stays undefined through further `closePage`,
`closeContext` and every dispatched command other than `SwitchActivePage`
while Auto-Activate is off. -/
theorem active_page_pointer_invariant :
    (∀ s, Reachable s → ActiveOk s) ∧
    (∀ s p, s.activePage = some p → (closePage p s).activePage = none) ∧
    (∀ s p, s.activePage = none → (closePage p s).activePage = none) ∧
    (∀ s c, s.activePage = none → (closeContext c s).activePage = none) ∧
    (∀ s cmd, s.activePage = none → s.autoActivate = false →
      cmd.name ≠ "SwitchActivePage" → ((dispatch cmd s).1).activePage = none) := by
  refine ⟨?_, ?_, ?_, ?_, ?_⟩
  · intro s hs
    induction hs with
    | init => exact activeOk_of_none _ rfl
    | cmdStep cmd s _ ih => exact activeOk_dispatch cmd s ih
    | closeContextStep c s _ _ => exact activeOk_closeContext c s
    | closePageStep p s _ ih => exact activeOk_closePage p s ih
  · intro s p hp
    simp [closePage, hp]
  · intro s p hp
    simp [closePage, hp]
  · intro s c hp
    simp [closeContext, hp]
  · intro s cmd hnone hauto hname
    obtain ⟨n, p⟩ := cmd
    simp only [dispatch]
    split <;> (try split) <;> dsimp only <;>
      first
        | rfl
        | exact hnone
        | (rw [createContext_activePage]; exact hnone)
        | (rw [openPage_activePage_noauto _ _ _
                 (by rw [(ensureContext_activePage _).2]; exact hauto),
               (ensureContext_activePage _).1];
           exact hnone)
        | simp_all

/-- Witness for C7: the invariant at the initial state and the pointer reset
at a concrete close of the active Page. -/
theorem active_page_pointer_invariant_witness :
    ActiveOk initialSession ∧ (closePage 1 sampleSessionActive).activePage = none :=
  ⟨active_page_pointer_invariant.1 initialSession Reachable.init,
   active_page_pointer_invariant.2.1 sampleSessionActive 1 rfl⟩

end BrowserSpec
